import Mathlib

/-
Verification development for the pause/resume/cancel core of
machine-collaboration-utility.

Embedded source files:
  * src/bots/Virtual/commands/pause.js        (the pause orchestrator)
  * src/server/middleware/jobs/job.js         (the Job class)
  * src/server/middleware/jobs/index.js       (the Jobs registry, deleteJob)

The command queue drain loop, botFsmDefinitions and jobFsmDefinitions are
required by those files but are not part of the embedded sources; they are
modelled from the specification, as marked in the doc comments below.
-/

deriving instance DecidableEq for Except

namespace MCU

/-- An exact finite decimal `mant / 10 ^ exp`, the value space of the
telemetry numbers (§3: "four signed decimal fields"); kept canonical (the
mantissa is not divisible by 10 unless the exponent is 0) so that
structural equality is value equality. All the decimals the pause protocol
computes with are exactly representable, so exact decimal arithmetic
coincides with the source's number arithmetic on them. -/
structure Dec where
  mant : ℤ
  exp : ℕ
  deriving DecidableEq, Repr

/-- Canonicalise `m / 10 ^ e` by stripping factors of 10. -/
def Dec.norm (m : ℤ) : ℕ → Dec
  | 0 => ⟨m, 0⟩
  | e + 1 => if m % 10 = 0 then Dec.norm (m / 10) e else ⟨m, e + 1⟩

/-- Exact decimal addition: rescale to the larger exponent, add, and
canonicalise. -/
def Dec.add (a b : Dec) : Dec :=
  let e := max a.exp b.exp
  Dec.norm (a.mant * (Int.ofNat (10 ^ (e - a.exp))) +
            b.mant * (Int.ofNat (10 ^ (e - b.exp)))) e

/-- Exact decimal negation. -/
def Dec.neg (a : Dec) : Dec :=
  ⟨-a.mant, a.exp⟩

/-- Exact decimal subtraction. -/
def Dec.sub (a b : Dec) : Dec :=
  Dec.add a (Dec.neg b)

instance : Neg Dec := ⟨Dec.neg⟩

instance : Add Dec := ⟨Dec.add⟩

instance : Sub Dec := ⟨Dec.sub⟩

instance (n : ℕ) : OfNat Dec n := ⟨⟨Int.ofNat n, 0⟩⟩

instance : OfScientific Dec :=
  ⟨fun m b e => if b then Dec.norm (Int.ofNat m) e else ⟨Int.ofNat (m * 10 ^ e), 0⟩⟩

/-- Decimal rendering of a canonical `Dec`, as JS `toString` renders the
corresponding number (no trailing fractional zeros). -/
def Dec.render (d : Dec) : String :=
  if d.exp = 0 then toString d.mant
  else
    let p : ℕ := 10 ^ d.exp
    let a : ℕ := d.mant.natAbs
    let sgn := if d.mant < 0 then "-" else ""
    let fracStr := toString (a % p)
    let pad := String.mk (List.replicate (d.exp - fracStr.length) '0')
    sgn ++ toString (a / p) ++ "." ++ pad ++ fracStr

/-- A JavaScript number-ish value as it occurs in the pause cascade:
`undefined` (an uninitialised field), `NaN`, or a finite decimal. -/
inductive JSVal where
  | undef : JSVal
  | nan : JSVal
  | num : Dec → JSVal
  deriving DecidableEq, Repr

/-- JavaScript `+` on the values above: any operand that is not a finite
number (here `undefined` or `NaN`) makes the numeric result `NaN`. -/
def jsAdd : JSVal → JSVal → JSVal
  | .num a, .num b => .num (a + b)
  | _, _ => .nan

/-- JavaScript `-` on the values above, same `NaN` propagation as `jsAdd`. -/
def jsSub : JSVal → JSVal → JSVal
  | .num a, .num b => .num (a - b)
  | _, _ => .nan

/-- Interpolation of a value into a JS template literal; the only value the
pause cascade ever interpolates is `undefined + 10`, i.e. `NaN`. -/
def jsValToString : JSVal → String
  | .undef => "undefined"
  | .nan => "NaN"
  | .num d => d.render

/-- Fold a list of decimal digit characters into a natural number. -/
def digitsToNat (ds : List Char) : ℕ :=
  ds.foldl (fun n c => 10 * n + (c.toNat - '0'.toNat)) 0

/-- JavaScript `Number()` restricted to the decimal shapes `[+-]?\d+(\.\d+)?`
captured by the telemetry regex; any other shape yields `NaN` here (the
source never feeds `Number()` anything else along the modelled paths). -/
def jsNumber (s : String) : JSVal :=
  let cs := s.data
  let signed : Bool × List Char :=
    match cs with
    | '-' :: r => (true, r)
    | '+' :: r => (false, r)
    | _ => (false, cs)
  let neg := signed.1
  let body := signed.2
  let ds := body.takeWhile Char.isDigit
  let rest := body.dropWhile Char.isDigit
  if ds.isEmpty then .nan
  else
    let signIt : ℤ → ℤ := fun m => if neg then -m else m
    match rest with
    | [] => .num ⟨signIt (Int.ofNat (digitsToNat ds)), 0⟩
    | '.' :: fs =>
      if fs.isEmpty then .nan
      else if fs.all Char.isDigit then
        .num (Dec.norm
          (signIt (Int.ofNat (digitsToNat ds * 10 ^ fs.length + digitsToNat fs)))
          fs.length)
      else .nan
    | _ => .nan

/-- Whitespace characters matched by the regex class `\s` (the characters
that occur in practice in telemetry lines). -/
def jsWs (c : Char) : Bool :=
  c = ' ' ∨ c = '\t' ∨ c = '\n' ∨ c = '\r'

/-- Greedy match of one `[+-]?\d+(\.\d+)?` token at the head of the input,
returning the captured characters and the remaining input. Maximal munch
agrees with the regex engine here because the token is always followed in
the pattern by `\s*` and a letter, which no digit or dot can satisfy after
backtracking. -/
def parseNumTok (cs : List Char) : Option (List Char × List Char) :=
  let signSplit : List Char × List Char :=
    match cs with
    | '+' :: r => (['+'], r)
    | '-' :: r => (['-'], r)
    | _ => ([], cs)
  let sgn := signSplit.1
  let afterSign := signSplit.2
  let ds := afterSign.takeWhile Char.isDigit
  let rest := afterSign.dropWhile Char.isDigit
  if ds.isEmpty then none
  else
    match rest with
    | '.' :: tl =>
      let fs := tl.takeWhile Char.isDigit
      if fs.isEmpty then some (sgn ++ ds, rest)
      else some (sgn ++ ds ++ '.' :: fs, tl.dropWhile Char.isDigit)
    | _ => some (sgn ++ ds, rest)

/-- The four captured number strings of the telemetry regex, X Y Z E in
order. -/
abbrev M114Groups := List Char × List Char × List Char × List Char

/-- Match `X:` num `\s*` `Y:` num `\s*` `Z:` num `\s*` `E:` num at the head
of the input (the trailing `.*` of the regex accepts any remainder). -/
def matchFrom : List Char → Option M114Groups
  | 'X' :: ':' :: cs =>
    match parseNumTok cs with
    | none => none
    | some (gx, cs) =>
      match (cs.dropWhile jsWs) with
      | 'Y' :: ':' :: cs =>
        match parseNumTok cs with
        | none => none
        | some (gy, cs) =>
          match (cs.dropWhile jsWs) with
          | 'Z' :: ':' :: cs =>
            match parseNumTok cs with
            | none => none
            | some (gz, cs) =>
              match (cs.dropWhile jsWs) with
              | 'E' :: ':' :: cs =>
                match parseNumTok cs with
                | none => none
                | some (ge, _) => some (gx, gy, gz, ge)
              | _ => none
          | _ => none
      | _ => none
  | _ => none

/-- Scan all start positions, preferring the latest one that matches: this is
the effect of the greedy leading `.*` in the source regex
`.*X:([+-]?\d+(\.\d+)?)\s*Y:...\s*Z:...\s*E:...` -/
def m114MatchAux : List Char → Option M114Groups
  | [] => none
  | c :: cs =>
    match m114MatchAux cs with
    | some g => some g
    | none => matchFrom (c :: cs)

/-- `data.match(m114Regex)`, reduced to the four captured number strings
(`parsedPosition[1]`, `[3]`, `[5]`, `[7]` in the source); `none` models a
`null` match result. -/
def m114Match (s : String) : Option (String × String × String × String) :=
  (m114MatchAux s.data).map fun g =>
    (String.mk g.1, String.mk g.2.1, String.mk g.2.2.1, String.mk g.2.2.2)

/-- Device (bot) states. Modelled from the spec: §4.2 lists the minimum set
`disconnected, connecting, idle, blocking, unblocking, paused`; `pausing` is
the settling state entered by the `pause` event and left by `pauseDone`
("pauseDone completes settling into paused after recovery motion finishes"). -/
inductive DeviceState where
  | disconnected : DeviceState
  | connecting : DeviceState
  | idle : DeviceState
  | blocking : DeviceState
  | unblocking : DeviceState
  | pausing : DeviceState
  | paused : DeviceState
  deriving DecidableEq, Repr

/-- The state name as it appears in source error messages. -/
def DeviceState.name : DeviceState → String
  | .disconnected => "disconnected"
  | .connecting => "connecting"
  | .idle => "idle"
  | .blocking => "blocking"
  | .unblocking => "unblocking"
  | .pausing => "pausing"
  | .paused => "paused"

/-- Modelled from the spec: `botFsmDefinitions.metaStates.pauseable`
(the definitions module is not among the embedded sources). §4.2: a pause
request is accepted directly from `idle`; `blocking`/`unblocking` are
eligible for the deferred pause path, and the deferred branch of pause.js is
reachable only if they pass the same guard, so they belong to the guard
array. -/
def pauseableStates : List DeviceState :=
  [.idle, .blocking, .unblocking]

/-- Device state machine events used by the pause cascade. -/
inductive DevEv where
  | pause : DevEv
  | pauseDone : DevEv
  | resume : DevEv
  deriving DecidableEq, Repr

/-- Modelled from the spec: the device state machine transition table of
§4.2 (the definitions module is not among the embedded sources). `pause`
begins settling from any pauseable state, `pauseDone` completes it into
`paused`, `resume` returns to `idle`; anything else is an invalid
transition (`none`). -/
def deviceTransition : DevEv → DeviceState → Option DeviceState
  | .pause, s => if s ∈ pauseableStates then some .pausing else none
  | .pauseDone, .pausing => some .paused
  | .pauseDone, _ => none
  | .resume, .paused => some .idle
  | .resume, _ => none

/-- Job life-cycle states, per §4.4 and jobFsmDefinitions' users in job.js. -/
inductive JobState where
  | initState : JobState
  | ready : JobState
  | running : JobState
  | paused : JobState
  | canceled : JobState
  | complete : JobState
  deriving DecidableEq, Repr

/-- The state name as it appears in source error messages. -/
def JobState.name : JobState → String
  | .initState => "initializing"
  | .ready => "ready"
  | .running => "running"
  | .paused => "paused"
  | .canceled => "canceled"
  | .complete => "complete"

/-- Modelled from the spec: `jobFsmDefinitions.metaStates.processingJob`
(the definitions module is not among the embedded sources). §4.3: cancel is
"valid only from a configured set of processing Job states (at minimum
running and paused)". -/
def processingJob : List JobState :=
  [.running, .paused]

/-- Job state machine events (job.js fires these on `this.fsm`). -/
inductive JobEv where
  | initDone : JobEv
  | start : JobEv
  | pause : JobEv
  | resume : JobEv
  | cancel : JobEv
  | completeJob : JobEv
  deriving DecidableEq, Repr

/-- Modelled from the spec: the job state machine transition table of §4.4
(jobFsmDefinitions is not among the embedded sources). An event fired from
a state that does not permit it raises a state-transition error, as the
fsm error handler in job.js throws. -/
def jobFsmFire : JobEv → JobState → Except String JobState
  | .initDone, .initState => .ok .ready
  | .start, .ready => .ok .running
  | .pause, .running => .ok .paused
  | .resume, .paused => .ok .running
  | .cancel, s =>
    if s ∈ processingJob then .ok .canceled
    else .error ("Invalid job state change on event cancel from " ++ s.name)
  | .completeJob, .running => .ok .complete
  | _, s => .error ("Invalid job state change from " ++ s.name)

/-- The mutable per-job state touched by the Job methods of job.js: the
state machine's current state, whether the elapsed-time stopwatch is
running, and the logger output. -/
structure Job where
  fsm : JobState
  stopwatchRunning : Bool
  log : List String
  deriving DecidableEq, Repr

/-- Job.prototype.pause from src/server/middleware/jobs/job.js: return
unchanged if already `paused`; throw if not `running`; otherwise stop the
stopwatch and fire the `pause` transition, logging (not rethrowing) any
state-machine error. `Except.error` models a thrown exception reaching the
caller. -/
def Job.pause (j : Job) : Except String Job :=
  if j.fsm = .paused then .ok j
  else if j.fsm ≠ .running then
    .error ("Cannot pause job from state " ++ j.fsm.name)
  else
    let j1 := { j with stopwatchRunning := false }
    match jobFsmFire .pause j1.fsm with
    | .ok s => .ok { j1 with fsm := s }
    | .error e => .ok { j1 with log := j1.log ++ ["Job pause failure " ++ e] }

/-- Job.prototype.resume from src/server/middleware/jobs/job.js: return
unchanged if already `running`; throw if not `paused`; otherwise start the
stopwatch and fire the `resume` transition, logging (not rethrowing) any
state-machine error. -/
def Job.resume (j : Job) : Except String Job :=
  if j.fsm = .running then .ok j
  else if j.fsm ≠ .paused then
    .error ("Cannot resume job from state " ++ j.fsm.name)
  else
    let j1 := { j with stopwatchRunning := true }
    match jobFsmFire .resume j1.fsm with
    | .ok s => .ok { j1 with fsm := s }
    | .error e => .ok { j1 with log := j1.log ++ ["Job resume failure " ++ e] }

/-- Job.prototype.cancel from src/server/middleware/jobs/job.js: throw
unless the current state is in `metaStates.processingJob`; otherwise stop
the stopwatch and fire the `cancel` transition, logging (not rethrowing)
any state-machine error. The method reads and writes only the job's own
stopwatch and state machine; it has no reference to any command queue. -/
def Job.cancel (j : Job) : Except String Job :=
  if j.fsm ∉ processingJob then
    .error ("Cannot cancel job from state \"" ++ j.fsm.name ++ "\"")
  else
    let j1 := { j with stopwatchRunning := false }
    match jobFsmFire .cancel j1.fsm with
    | .ok s => .ok { j1 with fsm := s }
    | .error e => .ok { j1 with log := j1.log ++ ["Job cancel failure " ++ e] }

/-- A REST-friendly job record held in the Jobs registry (only identity is
relevant to the registry operations modelled here). -/
structure JobRec where
  uuid : String
  state : String
  deriving DecidableEq, Repr

/-- One `jobEvent` broadcast over the socket transport. -/
structure IoEvent where
  uuid : String
  event : String
  data : Option JobRec
  deriving DecidableEq, Repr

/-- The mutable state of the Jobs server instance: the registry `jobList`
keyed by uuid, the logger output, and the emitted socket events. -/
structure JobsState where
  jobList : List (String × JobRec)
  log : List String
  events : List IoEvent
  deriving DecidableEq, Repr

/-- Jobs.prototype.deleteJob from src/server/middleware/jobs/index.js:
look the job up (the binding is unused), `delete this.jobList[jobUuid]`
(a no-op when the key is absent), log, emit a `delete` jobEvent inside a
try/catch whose only effect here is that emission never throws, and return
the success string unconditionally. -/
def deleteJob (s : JobsState) (jobUuid : String) : JobsState × String :=
  let afterDelete :=
    { s with jobList := s.jobList.filter (fun p => p.1 ≠ jobUuid),
             log := s.log ++ ["Job " ++ jobUuid ++ " deleted"] }
  let afterEmit :=
    { afterDelete with
        events := afterDelete.events ++ [⟨jobUuid, "delete", none⟩] }
  (afterEmit, "Job " ++ jobUuid ++ " deleted")

/-- Per-bot settings read by pause.js: the bot name (used in the no-job
error message) and the per-axis offsets subtracted from parsed telemetry. -/
structure Settings where
  name : String
  offsetX : Dec
  offsetY : Dec
  offsetZ : Dec
  deriving DecidableEq, Repr

/-- A four-axis position record, each field a JS value so that the
uninitialised `undefined` fields of the local `pausedPosition` literal in
pause.js are represented faithfully. -/
structure Position where
  x : JSVal
  y : JSVal
  z : JSVal
  e : JSVal
  deriving DecidableEq, Repr

/-- The response-processing functions occurring in the embedded sources
(defunctionalised; only the M114 handler of pause.js exists). -/
inductive Pd where
  | m114 : Pd
  deriving DecidableEq, Repr

/-- The pre/post callbacks occurring in the pause cascade of pause.js
(defunctionalised so that command entries can carry them while the bot
state in turn carries the queue of entries). Their semantics is `runCb`. -/
inductive Cb where
  | stageAPost : Cb
  | m114Pre : Cb
  | liftPre : Cb
  | stageBClosePost : Cb
  | pauseEndPost : Cb
  | markerPost : Cb
  deriving DecidableEq, Repr

/-- A Command Entry: optional instruction text, optional pre- and
post-callbacks, optional response-processing function (§3 of the spec; the
queue implementation is not among the embedded sources). -/
structure Entry where
  code : Option String := none
  preCallback : Option Cb := none
  postCallback : Option Cb := none
  processData : Option Pd := none
  deriving DecidableEq, Repr

/-- Observable events of one bot's execution, in order: instructions sent
over the connection, the job pause call of Stage A, and successful device
state machine transitions. -/
inductive Ev where
  | sent : String → Ev
  | jobPauseCalled : Ev
  | devicePauseFired : Ev
  | devicePauseDoneFired : Ev
  | deviceResumeFired : Ev
  deriving DecidableEq, Repr

/-- The mutable per-bot state touched by pause.js: settings, device state
machine, current job, the stored paused position (`self.pausedPosition`),
the local `pausedPosition` variable captured by the lift entry's
preCallback (`posLocal`), the saved pauseable state, the command queue,
the event trace and the logger output. -/
structure BotState where
  settings : Settings
  fsm : DeviceState
  currentJob : Option Job
  pausedPosition : Position
  posLocal : Position
  pauseableState : Option DeviceState
  queue : List Entry
  trace : List Ev
  log : List String
  deriving DecidableEq, Repr

/-- The device/job snapshot returned by the control surface. Modelled from
the spec: §6, `pause(deviceId)` returns "the current device/job snapshot"
(`self.getBot()` in pause.js; the Bot class is not among the embedded
sources). -/
structure BotSnapshot where
  state : DeviceState
  job : Option (JobState × Bool)
  deriving DecidableEq, Repr

/-- `self.getBot()`: project the externally visible device state and job
state out of the bot. -/
def getBot (b : BotState) : BotSnapshot :=
  ⟨b.fsm, b.currentJob.map fun j => (j.fsm, j.stopwatchRunning)⟩

/-- Fire a device state machine event: on a valid transition update the
state and record the trace event; on an invalid one log the error and
leave the state unchanged (§4.2: transition errors are caught and logged,
pause requests being best-effort). -/
def fireDevice (ev : DevEv) (b : BotState) : BotState :=
  match deviceTransition ev b.fsm with
  | some s =>
    let traceEv : Ev :=
      match ev with
      | .pause => .devicePauseFired
      | .pauseDone => .devicePauseDoneFired
      | .resume => .deviceResumeFired
    { b with fsm := s, trace := b.trace ++ [traceEv] }
  | none =>
    { b with log := b.log ++ ["Invalid bot state change from " ++ b.fsm.name] }

/-- The `processData` function of the M114 telemetry entry in pause.js:
match the response line against the m114 regex, then build
`self.pausedPosition` from captured groups 1/3/5/7 minus the configured
x/y/z offsets (no offset on e), and return `true`. When the line does not
match, `data.match` is `null` and indexing `parsedPosition[1]` throws a
TypeError before anything is stored; the thrown exception is the
`Except.error` result. -/
def processData (b : BotState) (_command : String) (data : String) :
    Except String (BotState × Bool) :=
  match m114Match data with
  | none => .error "TypeError: Cannot read property 1 of null"
  | some (gx, gy, gz, ge) =>
    .ok ({ b with pausedPosition :=
            { x := jsSub (jsNumber gx) (.num b.settings.offsetX)
              y := jsSub (jsNumber gy) (.num b.settings.offsetY)
              z := jsSub (jsNumber gz) (.num b.settings.offsetZ)
              e := jsNumber ge } },
         true)

/-- The `pauseEndCommand` entry of pause.js (Stage C): callback-only, its
postCallback fires `pauseDone` on the device state machine. -/
def pauseEndCommand : Entry :=
  { postCallback := some .pauseEndPost }

/-- The local `pausedPosition` object literal of pause.js at the moment the
cascade is constructed: every field `undefined`. -/
def pausedPositionLocal0 : Position :=
  ⟨.undef, .undef, .undef, .undef⟩

/-- The instruction text of the lift entry. In the source it is the
template literal `G1 Z${pausedPosition.z + 10}`, which JavaScript evaluates
eagerly when the `pauseMovementCommand` array is constructed — at which
point the local `pausedPosition.z` is still `undefined`, so the text is
computed from `undefined + 10 = NaN`. -/
def liftCode : String :=
  "G1 Z" ++ jsValToString (jsAdd pausedPositionLocal0.z (.num 10))

/-- The `pauseMovementCommand` array of pause.js (Stage B): the M400
synchronisation instruction, the M114 telemetry query with its
response-processing function, the lift entry whose preCallback copies
`self.pausedPosition` into the local variable (after the instruction text
was already computed, see `liftCode`), and the closing entry whose
postCallback prepends `pauseEndCommand`. -/
def pauseMovementCommand : List Entry :=
  [ { code := some "M400" },
    { preCallback := some .m114Pre, code := some "M114",
      processData := some .m114 },
    { preCallback := some .liftPre, code := some liftCode },
    { postCallback := some .stageBClosePost } ]

/-- Stage A of pause.js: the entry prepended by
`self.queue.prependCommands({postCallback: ...})`, whose postCallback
pauses the job and prepends Stage B. -/
def stageAEntry : Entry :=
  { postCallback := some .stageAPost }

/-- The marker entry appended in the transient-state branch of pause.js:
its postCallback records the pauseable state and fires the `pause`
transition. -/
def markerEntry : Entry :=
  { postCallback := some .markerPost }

/-- Semantics of the defunctionalised callbacks, each the body of the
corresponding closure in pause.js. A `Job.pause` error inside Stage A's
postCallback surfaces in the queue's drain context; per the failure policy
of §4.1 it is logged rather than halting the queue. -/
def runCb : Cb → BotState → BotState
  | .stageAPost, b =>
    -- logger.debug('Starting pause command'); self.currentJob.pause();
    -- self.queue.prependCommands(pauseMovementCommand);
    let b1 :=
      match b.currentJob with
      | some j =>
        match j.pause with
        | .ok j' =>
          { b with currentJob := some j', trace := b.trace ++ [Ev.jobPauseCalled] }
        | .error e =>
          { b with log := b.log ++ [e], trace := b.trace ++ [Ev.jobPauseCalled] }
      | none => b
    { b1 with queue := pauseMovementCommand ++ b1.queue }
  | .m114Pre, b =>
    -- logger.debug('Starting pause movements')
    b
  | .liftPre, b =>
    -- pausedPosition = self.pausedPosition (the local variable copy)
    { b with posLocal := b.pausedPosition }
  | .stageBClosePost, b =>
    -- self.queue.prependCommands(pauseEndCommand)
    { b with queue := pauseEndCommand :: b.queue }
  | .pauseEndPost, b =>
    -- self.fsm.pauseDone()
    fireDevice .pauseDone b
  | .markerPost, b =>
    -- logger.debug(...); self.pauseableState = self.fsm.current; self.fsm.pause()
    fireDevice .pause { b with pauseableState := some b.fsm }

/-- Modelled from the spec: processing of one Command Entry by the queue's
drain loop (§4.1; the queue implementation is not among the embedded
sources): run the preCallback, send the instruction text (recording it in
the trace) and feed the response line to the response-processing function
if there is one, then run the postCallback. The environment `env` supplies
the device's response line for each instruction. A response-processing
function signals through its boolean result whether the entry is finished;
the only such function in the sources (`Pd.m114`) signals finished on its
single line — see `processDataReturnValue` for the convention — and a
thrown processing error is logged and the entry abandoned per the failure
policy of §4.1. -/
def runEntry (env : String → String) (e : Entry) (b : BotState) : BotState :=
  let b1 :=
    match e.preCallback with
    | some cb => runCb cb b
    | none => b
  let b2 :=
    match e.code with
    | some c =>
      let bSent := { b1 with trace := b1.trace ++ [Ev.sent c] }
      match e.processData with
      | some .m114 =>
        match processData bSent c (env c) with
        | .ok (b', _) => b'
        | .error err => { bSent with log := bSent.log ++ [err] }
      | none => bSent
    | none => b1
  match e.postCallback with
  | some cb => runCb cb b2
  | none => b2

/-- Modelled from the spec: the queue drain loop (§4.1), fuelled — pop the
head entry and process it; callbacks may prepend further entries ahead of
the remaining queue. -/
def drain (env : String → String) : ℕ → BotState → BotState
  | 0, b => b
  | n + 1, b =>
    match b.queue with
    | [] => b
    | e :: rest => drain env n (runEntry env e { b with queue := rest })

/-- The pause orchestrator of src/bots/Virtual/commands/pause.js. The three
precondition checks throw inside the try block; the catch logs the error;
the function always returns `self.getBot()`. On success Stage A is
prepended unconditionally, then: in a transient state the marker entry
(the single element unshifted into `commandArray`) is appended via
`queueCommands`, and the function returns without firing any transition;
otherwise the empty `commandArray` is prepended (a no-op), the pauseable
state is recorded and the `pause` transition is fired immediately. -/
def pause (b : BotState) : BotState × BotSnapshot :=
  match b.currentJob with
  | none =>
    let b' := { b with log := b.log ++
      ["Pause error: Bot " ++ b.settings.name ++ " is not currently processing a job"] }
    (b', getBot b')
  | some j =>
    if b.fsm ∉ pauseableStates then
      let b' := { b with log := b.log ++
        ["Pause error: Cannot pause bot from state \"" ++ b.fsm.name ++ "\""] }
      (b', getBot b')
    else if j.fsm ≠ .running then
      let b' := { b with log := b.log ++
        ["Pause error: Cannot pause job from state \"" ++ j.fsm.name ++ "\""] }
      (b', getBot b')
    else
      let b1 := { b with queue := stageAEntry :: b.queue }
      if b.fsm = .blocking ∨ b.fsm = .unblocking then
        let b2 := { b1 with queue := b1.queue ++ [markerEntry] }
        (b2, getBot b2)
      else
        let b2 := fireDevice .pause { b1 with pauseableState := some b1.fsm }
        (b2, getBot b2)

/-- A running job, as at pause-request time. -/
def job0 : Job :=
  { fsm := .running, stopwatchRunning := true, log := [] }

/-- Settings of the test scenario of §8: all offsets zero. -/
def settings0 : Settings :=
  { name := "VirtualBot", offsetX := 0, offsetY := 0, offsetZ := 0 }

/-- The §8 pauseable scenario: device `idle`, job `running`, empty queue. -/
def bot0 : BotState :=
  { settings := settings0, fsm := .idle, currentJob := some job0,
    pausedPosition := pausedPositionLocal0, posLocal := pausedPositionLocal0,
    pauseableState := none, queue := [], trace := [], log := [] }

/-- The device's response lines in the test scenario: the §8 telemetry line
for the M114 query, `ok` for everything else. -/
def env0 : String → String := fun c =>
  if c = "M114" then "X:10.5 Y:-2.0 Z:5.0 E:100.25" else "ok"

/-- An unrelated command entry already queued before the pause request. -/
def extEntry : Entry :=
  { code := some "EXT1" }

/-- The §8 transient scenario: device `blocking` with one already-queued
command entry. -/
def botB : BotState :=
  { bot0 with fsm := .blocking, queue := [extEntry] }

/-- A bot with no current job. -/
def botNoJob : BotState :=
  { bot0 with currentJob := none }

/-- A bot in a non-pauseable device state. -/
def botWrongState : BotState :=
  { bot0 with fsm := .paused }

/-- A bot whose job is already paused. -/
def botJobPaused : BotState :=
  { bot0 with currentJob := some { job0 with fsm := .paused } }

/-- Claim C1: the pause cascade stages its entries through post-callbacks
only. Right after pause() the queue holds Stage A alone — no entry of
Stage B (`pauseMovementCommand`) and not Stage C (`pauseEndCommand`) is
pre-enqueued; after Stage A's post-callback runs the queue is exactly
Stage B with Stage C still absent; after Stage B's closing entry runs the
queue is exactly Stage C; and the device fires `pauseDone` (settling into
`paused`) only after the lift instruction's entry has completed, as the
final trace order shows. -/
theorem pause_cascade_staged :
    (pause bot0).1.queue = [stageAEntry] ∧
    ((pause bot0).1.queue.filter
      (fun e => pauseMovementCommand.contains e || e == pauseEndCommand)) = [] ∧
    (drain env0 1 (pause bot0).1).queue = pauseMovementCommand ∧
    (drain env0 1 (pause bot0).1).queue.contains pauseEndCommand = false ∧
    (drain env0 5 (pause bot0).1).queue = [pauseEndCommand] ∧
    (drain env0 6 (pause bot0).1).fsm = DeviceState.paused ∧
    (drain env0 6 (pause bot0).1).trace =
      [Ev.devicePauseFired, Ev.jobPauseCalled, Ev.sent "M400", Ev.sent "M114",
       Ev.sent liftCode, Ev.devicePauseDoneFired] ∧
    (drain env0 6 (pause bot0).1).trace.indexOf (Ev.sent liftCode) <
      (drain env0 6 (pause bot0).1).trace.indexOf Ev.devicePauseDoneFired := by
  decide

/-- Claim C2 counterexample: with the device `blocking` and one entry
(`extEntry`) already queued, pause() leaves the queue as
`[stageAEntry, extEntry, markerEntry]` — the cascade's Stage A is
prepended ahead of the already-queued entry, not appended behind the
marker — and draining shows the job being paused and the whole Stage B
running before the already-queued `EXT1` instruction is sent, refuting
"no pause-related entry runs before entries already queued". -/
theorem pause_transient_cascade_not_appended :
    (pause botB).1.queue = [stageAEntry, extEntry, markerEntry] ∧
    (pause botB).1.queue.head? = some stageAEntry ∧
    ((pause botB).1.queue.head? == some extEntry) = false ∧
    (drain env0 8 (pause botB).1).trace =
      [Ev.jobPauseCalled, Ev.sent "M400", Ev.sent "M114", Ev.sent liftCode,
       Ev.sent "EXT1", Ev.devicePauseFired] ∧
    (drain env0 8 (pause botB).1).trace.indexOf Ev.jobPauseCalled <
      (drain env0 8 (pause botB).1).trace.indexOf (Ev.sent "EXT1") := by
  decide

/-- Claim C2 amended: when the device is in a transient state at request
time, only the single marker entry is appended behind the entries already
queued; the three-stage cascade itself is still prepended (Stage A at the
head), no transition fires at request time, and the marker's post-callback
records the pauseable state and fires the `pause` transition when it is
reached. -/
theorem pause_transient_marker_appended :
    ∀ (b : BotState) (j : Job),
      b.currentJob = some j → j.fsm = JobState.running →
      (b.fsm = DeviceState.blocking ∨ b.fsm = DeviceState.unblocking) →
      (pause b).1.queue = stageAEntry :: b.queue ++ [markerEntry] ∧
      (pause b).1.fsm = b.fsm ∧
      (pause b).1.pauseableState = b.pauseableState ∧
      (pause b).1.trace = b.trace ∧
      (∀ c : BotState, runCb Cb.markerPost c =
        fireDevice DevEv.pause { c with pauseableState := some c.fsm }) := by
  intro b j hj hrun htrans
  refine ⟨?_, ?_, ?_, ?_, fun c => rfl⟩ <;>
    rcases htrans with h | h <;>
    simp [pause, hj, hrun, h, pauseableStates]

/-- Claim C2 amended, witnessed at the `blocking` scenario `botB`. -/
theorem pause_transient_marker_appended_witness :
    (pause botB).1.queue = stageAEntry :: botB.queue ++ [markerEntry] ∧
    (pause botB).1.fsm = botB.fsm ∧
    (pause botB).1.pauseableState = botB.pauseableState ∧
    (pause botB).1.trace = botB.trace ∧
    (∀ c : BotState, runCb Cb.markerPost c =
      fireDevice DevEv.pause { c with pauseableState := some c.fsm }) :=
  pause_transient_marker_appended botB job0 rfl rfl (Or.inl rfl)

/-- Claim C3: each failing precondition of pause() — no current job, device
state not pauseable, job not running — raises the corresponding error
internally, which is caught and logged; the returned state differs from
the input only by the logged message (device state machine, job, paused
position, pauseable state and queue all unchanged), no exception escapes
(`pause` is a total function), and the current device/job snapshot is
returned. -/
theorem pause_precondition_failures :
    (∀ b : BotState, b.currentJob = none →
      pause b = ({ b with log := b.log ++
          ["Pause error: Bot " ++ b.settings.name ++
           " is not currently processing a job"] }, getBot b)) ∧
    (∀ (b : BotState) (j : Job), b.currentJob = some j →
      b.fsm ∉ pauseableStates →
      pause b = ({ b with log := b.log ++
          ["Pause error: Cannot pause bot from state \"" ++ b.fsm.name ++
           "\""] }, getBot b)) ∧
    (∀ (b : BotState) (j : Job), b.currentJob = some j →
      b.fsm ∈ pauseableStates → j.fsm ≠ JobState.running →
      pause b = ({ b with log := b.log ++
          ["Pause error: Cannot pause job from state \"" ++ j.fsm.name ++
           "\""] }, getBot b)) := by
  refine ⟨?_, ?_, ?_⟩
  · intro b hb
    simp [pause, hb, getBot]
  · intro b j hj hns
    simp [pause, hj, hns, getBot]
  · intro b j hj hps hrun
    simp [pause, hj, hps, hrun, getBot]

/-- Claim C3, witnessed at one concrete bot per failing precondition. -/
theorem pause_precondition_failures_witness :
    pause botNoJob = ({ botNoJob with log := botNoJob.log ++
        ["Pause error: Bot " ++ botNoJob.settings.name ++
         " is not currently processing a job"] }, getBot botNoJob) ∧
    pause botWrongState = ({ botWrongState with log := botWrongState.log ++
        ["Pause error: Cannot pause bot from state \"" ++
         botWrongState.fsm.name ++ "\""] }, getBot botWrongState) ∧
    pause botJobPaused = ({ botJobPaused with log := botJobPaused.log ++
        ["Pause error: Cannot pause job from state \"" ++
         JobState.paused.name ++ "\""] }, getBot botJobPaused) :=
  ⟨pause_precondition_failures.1 botNoJob rfl,
   pause_precondition_failures.2.1 botWrongState job0 rfl (by decide),
   pause_precondition_failures.2.2 botJobPaused { job0 with fsm := .paused }
     rfl (by decide) (by decide)⟩

/-- Claim C4: the lift instruction's text is NOT computed from the captured
paused position — the template literal is evaluated when the cascade is
constructed, while the local position is still all-`undefined`, so the text
is `G1 ZNaN`, not `G1 Z15`. Even in the §8 run where the telemetry stage
has completed and the stored z is 5 (so the intended text was
`G1 Z` ++ the rendering of 5+10 = 15), the instruction actually sent is
`G1 ZNaN`. -/
theorem lift_code_constructed_before_telemetry :
    liftCode = "G1 ZNaN" ∧
    liftCode ≠ "G1 Z15" ∧
    (drain env0 3 (pause bot0).1).pausedPosition.z = JSVal.num 5 ∧
    jsAdd (JSVal.num 5) (JSVal.num 10) = JSVal.num 15 ∧
    ("G1 Z" ++ jsValToString (JSVal.num 15)) = "G1 Z15" ∧
    (drain env0 6 (pause bot0).1).trace.contains (Ev.sent "G1 ZNaN") = true ∧
    (drain env0 6 (pause bot0).1).trace.contains (Ev.sent "G1 Z15") = false := by
  decide

/-- Claim C5: for every response line the m114 regex matches, processData
stores the paused position as parsed X/Y/Z minus the configured offsets
and parsed E with no offset; on the §8 input with zero offsets the stored
position is x = 10.5, y = -2, z = 5, e = 100.25. -/
theorem processData_offset_subtraction :
    (∀ (b : BotState) (cmd data gx gy gz ge : String),
      m114Match data = some (gx, gy, gz, ge) →
      processData b cmd data =
        Except.ok ({ b with pausedPosition :=
            { x := jsSub (jsNumber gx) (JSVal.num b.settings.offsetX),
              y := jsSub (jsNumber gy) (JSVal.num b.settings.offsetY),
              z := jsSub (jsNumber gz) (JSVal.num b.settings.offsetZ),
              e := jsNumber ge } }, true)) ∧
    (processData bot0 "M114" "X:10.5 Y:-2.0 Z:5.0 E:100.25").map
        (fun r => r.1.pausedPosition) =
      Except.ok { x := JSVal.num (10.5 : Dec), y := JSVal.num (-2 : Dec),
                  z := JSVal.num (5 : Dec), e := JSVal.num (100.25 : Dec) } := by
  constructor
  · intro b cmd data gx gy gz ge h
    simp [processData, h]
  · decide

/-- Claim C5, witnessed at the §8 telemetry line with zero offsets. -/
theorem processData_offset_subtraction_witness :
    processData bot0 "M114" "X:10.5 Y:-2.0 Z:5.0 E:100.25" =
      Except.ok ({ bot0 with pausedPosition :=
          { x := jsSub (jsNumber "10.5") (JSVal.num bot0.settings.offsetX),
            y := jsSub (jsNumber "-2.0") (JSVal.num bot0.settings.offsetY),
            z := jsSub (jsNumber "5.0") (JSVal.num bot0.settings.offsetZ),
            e := jsNumber "100.25" } }, true) :=
  processData_offset_subtraction.1 bot0 "M114" "X:10.5 Y:-2.0 Z:5.0 E:100.25"
    "10.5" "-2.0" "5.0" "100.25" (by decide)

/-- Claim C6 counterexample: on the well-formed §8 position line, the
source's processData returns `true`, not `false`. -/
theorem processData_returns_true_counterexample :
    (processData bot0 "M114" "X:10.5 Y:-2.0 Z:5.0 E:100.25").map Prod.snd =
      Except.ok true ∧
    (processData bot0 "M114" "X:10.5 Y:-2.0 Z:5.0 E:100.25").map Prod.snd ≠
      Except.ok false := by
  constructor
  · decide
  · decide

/-- Claim C6 amended: the telemetry entry's response-processing function
returns `true` once a well-formed position line is parsed (under the
spec's stated convention that would mean keep waiting, so either that
convention or this return value is inverted in the spec; the queue source
is not available to tell which). -/
theorem processData_returns_true :
    ∀ (b : BotState) (cmd data : String),
      (m114Match data).isSome = true →
      (processData b cmd data).map Prod.snd = Except.ok true := by
  intro b cmd data h
  match hm : m114Match data with
  | none => rw [hm] at h; cases h
  | some g =>
    obtain ⟨gx, gy, gz, ge⟩ := g
    simp [processData, hm, Except.map]

/-- Claim C6 amended, witnessed at the §8 telemetry line. -/
theorem processData_returns_true_witness :
    (processData bot0 "M114" "X:10.5 Y:-2.0 Z:5.0 E:100.25").map Prod.snd =
      Except.ok true :=
  processData_returns_true bot0 "M114" "X:10.5 Y:-2.0 Z:5.0 E:100.25"
    (by decide)

/-- Claim C7: on a response line that does not match the position format
(here the line `ok`), `data.match` is null and the source immediately
indexes `parsedPosition[1]`, throwing an unguarded TypeError instead of
failing the entry explicitly; the throw precedes the assignment, so
nothing (in particular no undefined/NaN) is stored into the paused
position: draining the M114 entry against a non-matching responder leaves
`pausedPosition` exactly as it was and only logs the TypeError. -/
theorem processData_nonmatching_throws :
    processData bot0 "M114" "ok" =
      Except.error "TypeError: Cannot read property 1 of null" ∧
    (runEntry (fun _ => "ok")
        { preCallback := some Cb.m114Pre, code := some "M114",
          processData := some Pd.m114 } bot0).pausedPosition =
      bot0.pausedPosition ∧
    (runEntry (fun _ => "ok")
        { preCallback := some Cb.m114Pre, code := some "M114",
          processData := some Pd.m114 } bot0).log =
      bot0.log ++ ["TypeError: Cannot read property 1 of null"] := by
  refine ⟨by decide, by decide, by decide⟩

/-- Claim C8: Job.resume while already `running` is a no-op raising no
error and firing no transition; Job.resume from `paused` transitions to
`running` exactly once (a second resume is a no-op) and restarts the
stopwatch; Job.pause while already `paused` is likewise a no-op. -/
theorem job_pause_resume_idempotent :
    (∀ j : Job, j.fsm = JobState.running → j.resume = Except.ok j) ∧
    (∀ j : Job, j.fsm = JobState.paused →
      j.resume = Except.ok
        { j with fsm := JobState.running, stopwatchRunning := true } ∧
      Job.resume { j with fsm := JobState.running, stopwatchRunning := true } =
        Except.ok
          { j with fsm := JobState.running, stopwatchRunning := true }) ∧
    (∀ j : Job, j.fsm = JobState.paused → j.pause = Except.ok j) := by
  refine ⟨?_, ?_, ?_⟩
  · intro j h
    simp [Job.resume, h]
  · intro j h
    constructor
    · simp [Job.resume, h, jobFsmFire]
    · simp [Job.resume]
  · intro j h
    simp [Job.pause, h]

/-- Claim C8, witnessed at concrete running and paused jobs. -/
theorem job_pause_resume_idempotent_witness :
    Job.resume job0 = Except.ok job0 ∧
    Job.resume { job0 with fsm := JobState.paused } =
      Except.ok { { job0 with fsm := JobState.paused } with
                    fsm := JobState.running, stopwatchRunning := true } ∧
    Job.pause { job0 with fsm := JobState.paused } =
      Except.ok { job0 with fsm := JobState.paused } :=
  ⟨job_pause_resume_idempotent.1 job0 rfl,
   (job_pause_resume_idempotent.2.1 { job0 with fsm := JobState.paused } rfl).1,
   job_pause_resume_idempotent.2.2 { job0 with fsm := JobState.paused } rfl⟩

/-- Claim C9: Job.cancel succeeds exactly on the states of the configured
processing set (`running` and `paused`), in which case it fires the cancel
transition into `canceled` and stops the stopwatch, changing nothing else
of the job (and Job.cancel has no reference to any command queue: its type
acts on the job alone); from `complete` it raises the precondition
error. -/
theorem job_cancel_processing_only :
    (∀ j : Job, j.fsm ∈ processingJob →
      j.cancel = Except.ok
        { j with fsm := JobState.canceled, stopwatchRunning := false }) ∧
    (∀ j : Job, j.fsm ∉ processingJob →
      j.cancel = Except.error
        ("Cannot cancel job from state \"" ++ j.fsm.name ++ "\"")) ∧
    (∀ j : Job, j.fsm = JobState.complete →
      j.cancel = Except.error "Cannot cancel job from state \"complete\"") := by
  refine ⟨?_, ?_, ?_⟩
  · intro j h
    simp only [processingJob, List.mem_cons, List.mem_singleton,
      List.not_mem_nil, or_false] at h
    rcases h with h | h <;> simp [Job.cancel, jobFsmFire, processingJob, h]
  · intro j h
    simp [Job.cancel, h]
  · intro j h
    simp [Job.cancel, jobFsmFire, processingJob, h, JobState.name]

/-- Claim C9, witnessed at a paused job and a complete job. -/
theorem job_cancel_processing_only_witness :
    Job.cancel { job0 with fsm := JobState.paused } =
      Except.ok { { job0 with fsm := JobState.paused } with
                    fsm := JobState.canceled, stopwatchRunning := false } ∧
    Job.cancel job0 =
      Except.ok { job0 with fsm := JobState.canceled,
                            stopwatchRunning := false } ∧
    Job.cancel { job0 with fsm := JobState.complete } =
      Except.error "Cannot cancel job from state \"complete\"" :=
  ⟨job_cancel_processing_only.1 { job0 with fsm := JobState.paused }
      (by decide),
   job_cancel_processing_only.1 job0 (by decide),
   job_cancel_processing_only.2.2 { job0 with fsm := JobState.complete } rfl⟩

/-- A one-job registry that does not contain the identifier `missing`. -/
def jobs0 : JobsState :=
  { jobList := [("a1", ⟨"a1", "running"⟩)], log := [], events := [] }

/-- Claim C10: deleting an identifier absent from the registry raises no
error (deleteJob is a total function): the registry is left unchanged, the
`delete` jobEvent is still emitted for that identifier, the deletion is
logged, and the success string is returned. -/
theorem deleteJob_missing_id_reports_success :
    ∀ (s : JobsState) (id : String),
      (∀ p ∈ s.jobList, p.1 ≠ id) →
      deleteJob s id =
        ({ s with log := s.log ++ ["Job " ++ id ++ " deleted"],
                  events := s.events ++ [⟨id, "delete", none⟩] },
         "Job " ++ id ++ " deleted") := by
  intro s id h
  have hf : s.jobList.filter (fun p => p.1 ≠ id) = s.jobList := by
    rw [List.filter_eq_self]
    intro a ha
    simp only [decide_eq_true_eq]
    exact h a ha
  simp only [deleteJob]
  rw [hf]

/-- Claim C10, witnessed at a registry without the identifier `missing`. -/
theorem deleteJob_missing_id_reports_success_witness :
    deleteJob jobs0 "missing" =
      ({ jobs0 with log := jobs0.log ++ ["Job missing deleted"],
                    events := jobs0.events ++ [⟨"missing", "delete", none⟩] },
       "Job missing deleted") := by
  simpa using deleteJob_missing_id_reports_success jobs0 "missing" (by decide)

end MCU
